import Mathlib

/-
  Shallow embedding of the cross-chain transfer orchestrator of the
  ethcc-25/backend-api repository.

  Modelled source files:
  - src/services/retrieve.ts            (RetrieveService.retrieveAttestation)
  - src/services/withdraw.service.ts    (WithdrawService)
  - src/services/fluid.service.ts       (DepositService, second variant:
                                         initializedDeposit, waitForConfirmationAndProcess)
  - CronService (processPendingAttestations / processIndividualWithdraw)

  External effects (HTTP calls to the attestation service, on-chain reads and
  writes, MongoDB) are modelled by explicit oracle parameters and by explicit
  state passing of the record collections.  Timestamps (createdAt/updatedAt)
  are not modelled: no claim mentions them.  Mongo object ids are modelled as
  naturals, freshly drawn from the collection size at insertion.
-/

namespace Backend

/-! ## Attestation client (src/services/retrieve.ts) -/

/-- One entry of `response.data.messages` returned by the attestation API. -/
structure AttestationMessage where
  status : String
  message : String
  attestation : String
  eventNonce : String
deriving Repr, DecidableEq

/-- Outcome of the single HTTP GET issued by `retrieveAttestation`:
either a JSON body with a `messages` array, or an axios error carrying the
HTTP status code and the axios error message. -/
inductive HttpResponse where
  | ok (messages : List AttestationMessage)
  | httpError (code : Nat) (msg : String)
deriving Repr, DecidableEq

instance {ε α : Type} [DecidableEq ε] [DecidableEq α] : DecidableEq (Except ε α) := fun x y =>
  match x, y with
  | .ok a, .ok b =>
    if h : a = b then .isTrue (by rw [h]) else .isFalse (fun he => h (Except.ok.inj he))
  | .error a, .error b =>
    if h : a = b then .isTrue (by rw [h]) else .isFalse (fun he => h (Except.error.inj he))
  | .ok _, .error _ => .isFalse (fun he => Except.noConfusion he)
  | .error _, .ok _ => .isFalse (fun he => Except.noConfusion he)

/-- Result of one `retrieveAttestation` call together with the list of URLs
actually requested over HTTP (empty when validation rejects the input before
any network activity). -/
structure AttCallRun where
  result : Except String (Option AttestationMessage)
  requests : List String
deriving Repr, DecidableEq

/-- The chain-name to CCTP-domain mapping hard-coded in `retrieveAttestation`
(`domainMapping`), with the `?? 0` default for unknown chains. -/
def domainForChain (chainSource : String) : Nat :=
  match chainSource.toLower with
  | "ethereum" => 0
  | "arbitrum" => 3
  | "base" => 6
  | "world" => 0
  | _ => 0

/-- Model of `RetrieveService.retrieveAttestation(transactionHash, chainSource)` from
src/services/retrieve.ts.  The validation guard `!transactionHash ||
transactionHash.length < 10` runs before the HTTP request.  A body whose
first message has status `"complete"` yields that message; any other body
yields `null` (not ready).  An HTTP 404 also yields `null`; every other HTTP
failure is rethrown as `Failed to retrieve attestation: <axios message>`.
An empty `messages` array makes the JS code fault on `messages[0].status`;
that TypeError is rethrown through the same wrapper. -/
def retrieveAttestation (baseUrl transactionHash chainSource : String)
    (resp : HttpResponse) : AttCallRun :=
  if transactionHash = "" ∨ transactionHash.length < 10 then
    { result := .error "Invalid transaction hash provided", requests := [] }
  else
    let url := baseUrl ++ "/" ++ toString (domainForChain chainSource)
      ++ "?transactionHash=" ++ transactionHash
    match resp with
    | .ok msgs =>
      match msgs.head? with
      | some m =>
        if m.status = "complete" then
          { result := .ok (some m), requests := [url] }
        else
          { result := .ok none, requests := [url] }
      | none =>
        { result := .error
            "Failed to retrieve attestation: Cannot read properties of undefined",
          requests := [url] }
    | .httpError code msg =>
      if code = 404 then
        { result := .ok none, requests := [url] }
      else
        { result := .error ("Failed to retrieve attestation: " ++ msg),
          requests := [url] }

/-! ## Position locator (WithdrawService.checkUserPosition) -/

/-- On-chain position tuple as decoded from `contract.read.positions`. -/
structure Position where
  pool : Nat
  positionId : String
  user : String
  amountUsdc : String
  shares : String
  vault : String
deriving Repr, DecidableEq

/-- What one configured chain yields during a position scan: the contract or
chain config may be missing (the loop `continue`s), the RPC read may throw
(caught and skipped), or the read returns a position tuple. -/
inductive ChainReadOutcome where
  | noConfig
  | readError
  | position (p : Position)
deriving Repr, DecidableEq

/-- Model of `supportedDomains` of `checkUserPosition`: Ethereum, Optimism, Arbitrum,
Base, scanned in this order. -/
def supportedDomains : List Nat := [0, 2, 3, 6]

/-- Whether a chain read outcome is a position with pool id > 0. -/
def positiveRead : ChainReadOutcome → Bool
  | .position p => 0 < p.pool
  | _ => false

/-- The scan loop of `checkUserPosition`: walk the domain list in order,
skip chains without config and chains whose read throws, and return at the
first position with `pool > 0`. -/
def scanPositions (env : Nat → ChainReadOutcome) : List Nat → Option (Position × Nat)
  | [] => none
  | d :: rest =>
    match env d with
    | .position p => if 0 < p.pool then some (p, d) else scanPositions env rest
    | _ => scanPositions env rest

/-- Model of `WithdrawService.checkUserPosition(userAddress)`.  The per-domain oracle
`env` stands for the contract/chain configuration lookup and the on-chain
`positions(userAddress)` read for one domain. -/
def checkUserPosition (env : Nat → ChainReadOutcome) : Option (Position × Nat) :=
  scanPositions env supportedDomains

/-! ## Deposit workflow (DepositService in src/services/fluid.service.ts,
second variant: `InternalDepositRequest`, domain-keyed processing) -/

/-- Deposit record statuses (src/types: `DepositStatus.status`). -/
inductive DepositStatusE where
  | pending_attestation
  | attestation_received
  | processing_deposit
  | deposit_confirmed
  | completed
  | failed
deriving Repr, DecidableEq

/-- Model of `opportunity` field of a deposit.  The `apy` JS number is only ever
copied, never computed with; it is carried as an integer here. -/
structure Opportunity where
  protocol : Nat
  apy : Int
  chainId : Nat
  poolAddress : String
deriving Repr, DecidableEq

/-- A persisted deposit record (MongoDB `DepositStatus` document). -/
structure DepositRecord where
  _id : Nat
  srcChainDomain : Nat
  dstChainDomain : Nat
  userWallet : String
  amount : String
  opportunity : Opportunity
  bridgeTransactionHash : String
  status : DepositStatusE
  attestationMessage : Option String
  attestation : Option String
  depositTxHash : Option String
  errorMessage : Option String
deriving Repr, DecidableEq

/-- Model of `InternalDepositRequest` (fluid.service.ts, second variant). -/
structure InternalDepositRequest where
  srcChainDomain : Nat
  dstChainDomain : Nat
  userWallet : String
  amount : String
  opportunity : Opportunity
  bridgeTransactionHash : String
deriving Repr, DecidableEq

/-- Model of `DepositStatus.findOne({ bridgeTransactionHash })`: first match wins. -/
def findDepositByTxHash (db : List DepositRecord) (tx : String) : Option DepositRecord :=
  db.find? (fun r => r.bridgeTransactionHash == tx)

/-- Model of `DepositStatus.findById`. -/
def getDepositById (db : List DepositRecord) (id : Nat) : Option DepositRecord :=
  db.find? (fun r => r._id == id)

/-- Model of `DepositStatus.findByIdAndUpdate(id, patch)`: apply the patch to the
record(s) carrying this id, leave the rest untouched. -/
def updateDepositById (db : List DepositRecord) (id : Nat)
    (patch : DepositRecord → DepositRecord) : List DepositRecord :=
  db.map (fun r => if r._id == id then patch r else r)

/-- Model of `DepositService.initializedDeposit(request)` (fluid.service.ts
lines 597-615): look the record up by its bridge transaction hash first and
return it unchanged when it exists; only otherwise insert a fresh record in
`pending_attestation`. -/
def initializedDeposit (db : List DepositRecord) (req : InternalDepositRequest) :
    List DepositRecord × DepositRecord :=
  match findDepositByTxHash db req.bridgeTransactionHash with
  | some existing => (db, existing)
  | none =>
    let newRec : DepositRecord := {
      _id := db.length + 1
      srcChainDomain := req.srcChainDomain
      dstChainDomain := req.dstChainDomain
      userWallet := req.userWallet
      amount := req.amount
      opportunity := req.opportunity
      bridgeTransactionHash := req.bridgeTransactionHash
      status := .pending_attestation
      attestationMessage := none
      attestation := none
      depositTxHash := none
      errorMessage := none }
    (db ++ [newRec], newRec)

/-- Outcome of one `retrieveService.retrieveAttestation` call as seen by the
polling loops: a returned value (`null` or a message), or a thrown error. -/
inductive PollResult where
  | ok (data : Option AttestationMessage)
  | err
deriving Repr, DecidableEq

/-- The bounded polling loop shared by `waitForConfirmationAndProcess` and
`waitForAttestationAndProcess`:

    while (attempts < maxAttempts && !attestationData) { try { ... } catch { ... } }

Each iteration makes one attestation call (`oracle i`).  A thrown error or a
`null` return increments `attempts` and retries; any non-null message ends
the loop (via `break` when complete, via the `!attestationData` guard
otherwise).  Returns the final `attestationData` and the number of calls
made. -/
def pollAttestation (oracle : Nat → PollResult) : Nat → Nat → Option AttestationMessage × Nat
  | _, 0 => (none, 0)
  | i, fuel + 1 =>
    match oracle i with
    | .ok (some m) => (some m, 1)
    | _ =>
      let rest := pollAttestation oracle (i + 1) fuel
      (rest.1, rest.2 + 1)

/-- Model of `maxAttempts` of the deposit polling loop (fluid.service.ts line 699). -/
def depositMaxAttempts : Nat := 12

/-- Observable result of one `waitForConfirmationAndProcess` invocation:
the updated collection, the returned record or thrown error, how many
destination-chain `processDeposit` submissions were attempted, how many
attestation calls were made, and the sequence of `status` values persisted,
in order. -/
structure DepositRun where
  db : List DepositRecord
  result : Except String DepositRecord
  destCalls : Nat
  attCalls : Nat
  statusWrites : List DepositStatusE
deriving Repr, DecidableEq

/-- The attestation-timeout tail of `waitForConfirmationAndProcess`: the
record is marked failed inside the `try`, the accompanying `throw` is caught
by the outer `catch`, which marks it failed once more and rethrows. -/
def depositTimeoutRun (db1 : List DepositRecord) (id : Nat) (attCalls : Nat) : DepositRun :=
  let msg := "Attestation timeout or not found"
  let failPatch : DepositRecord → DepositRecord :=
    fun r => { r with status := .failed, errorMessage := some msg }
  let db2 := updateDepositById db1 id failPatch
  let db3 := updateDepositById db2 id failPatch
  { db := db3, result := .error msg, destCalls := 0, attCalls := attCalls,
    statusWrites := [.pending_attestation, .failed, .failed] }

/-- Model of `DepositService.waitForConfirmationAndProcess(transactionHash)`
(fluid.service.ts lines 680-769).  `oracle` supplies the outcome of each
attestation poll; `dest` supplies the outcome of the destination-chain
`processDeposit` call (transaction hash on success, wrapped error text on
failure).  Note the function looks the record up by transaction hash and then
unconditionally rewrites it to `pending_attestation` before doing anything
else - there is no check of the previously persisted status or of
`depositTxHash`. -/
def waitForConfirmationAndProcess (db : List DepositRecord) (transactionHash : String)
    (oracle : Nat → PollResult) (dest : Except String String) : DepositRun :=
  match findDepositByTxHash db transactionHash with
  | none =>
    { db := db, result := .error "Deposit status not found for transaction hash",
      destCalls := 0, attCalls := 0, statusWrites := [] }
  | some r0 =>
    let db1 := updateDepositById db r0._id (fun r =>
      { r with bridgeTransactionHash := transactionHash, status := .pending_attestation })
    let poll := pollAttestation oracle 0 depositMaxAttempts
    match poll.1 with
    | none => depositTimeoutRun db1 r0._id poll.2
    | some m =>
      if m.status = "complete" then
        let db2 := updateDepositById db1 r0._id (fun r =>
          { r with status := .attestation_received,
                   attestationMessage := some m.message,
                   attestation := some m.attestation })
        match dest with
        | .ok h =>
          let db3 := updateDepositById db2 r0._id (fun r =>
            { r with status := .deposit_confirmed, depositTxHash := some h })
          let db4 := updateDepositById db3 r0._id (fun r => { r with status := .completed })
          { db := db4,
            result := match getDepositById db4 r0._id with
              | some r => .ok r
              | none => .error "Deposit status not found",
            destCalls := 1, attCalls := poll.2,
            statusWrites := [.pending_attestation, .attestation_received,
                             .deposit_confirmed, .completed] }
        | .error e =>
          let msg := "Failed to process deposit: " ++ e
          let db3 := updateDepositById db2 r0._id (fun r =>
            { r with status := .failed, errorMessage := some msg })
          { db := db3, result := .error msg, destCalls := 1, attCalls := poll.2,
            statusWrites := [.pending_attestation, .attestation_received, .failed] }
      else depositTimeoutRun db1 r0._id poll.2

/-! ## Withdraw workflow (WithdrawService, variant with
`initializeWithdrawProcess` / `processWithdrawWithAttestation`, plus the
`waitForAttestationAndProcess` resume of src/services/withdraw.service.ts) -/

/-- Withdraw record statuses (src/models/WithdrawStatus.ts enum). -/
inductive WithdrawStatusE where
  | checking_position
  | position_found
  | initiating_withdraw
  | withdraw_initiated
  | pending_attestation
  | attestation_received
  | processing_withdraw
  | completed
  | failed
deriving Repr, DecidableEq

/-- A persisted withdraw record (MongoDB `WithdrawStatus` document). -/
structure WithdrawRecord where
  _id : Nat
  userAddress : String
  srcChainDomain : Nat
  dstChainDomain : Nat
  status : WithdrawStatusE
  position : Option Position
  initWithdrawTxHash : Option String
  attestationMessage : Option String
  attestation : Option String
  processWithdrawTxHash : Option String
  errorMessage : Option String
deriving Repr, DecidableEq

/-- Model of `WithdrawStatus.findById`. -/
def getWithdrawById (db : List WithdrawRecord) (id : Nat) : Option WithdrawRecord :=
  db.find? (fun r => r._id == id)

/-- Model of `WithdrawStatus.findByIdAndUpdate(id, patch)`. -/
def updateWithdrawById (db : List WithdrawRecord) (id : Nat)
    (patch : WithdrawRecord → WithdrawRecord) : List WithdrawRecord :=
  db.map (fun r => if r._id == id then patch r else r)

/-- The zeroed position snapshot persisted by `initializeWithdrawProcess`
when no position is found on any chain. -/
def zeroPositionSnapshot (userAddress : String) : Position :=
  { pool := 0
    positionId := "0x0000000000000000000000000000000000000000000000000000000000000000"
    user := userAddress
    amountUsdc := "0"
    shares := "0"
    vault := "0x0000000000000000000000000000000000000000" }

/-- Result of one withdraw-initiation invocation. -/
structure WithdrawInitRun where
  db : List WithdrawRecord
  result : Except String WithdrawRecord
deriving Repr, DecidableEq

/-- Model of `WithdrawService.initializeWithdrawProcess(userAddress)`: scan for a
position; when none is found, persist a `failed` record with a zeroed
position snapshot and throw; when found, persist the snapshot in
`initiating_withdraw`, submit `initWithdraw` on the source chain (`initTx`
oracle), and on success move to `pending_attestation` with the transaction
hash.  An `initWithdraw` failure is rethrown by the outer catch without a
status write. -/
def initializeWithdrawProcess (db : List WithdrawRecord) (userAddress : String)
    (env : Nat → ChainReadOutcome) (initTx : Except String String) : WithdrawInitRun :=
  match checkUserPosition env with
  | none =>
    let newRec : WithdrawRecord := {
      _id := db.length + 1
      userAddress := userAddress
      srcChainDomain := 0
      dstChainDomain := 14
      status := .failed
      position := some (zeroPositionSnapshot userAddress)
      initWithdrawTxHash := none
      attestationMessage := none
      attestation := none
      processWithdrawTxHash := none
      errorMessage := some "No position found for this user" }
    { db := db ++ [newRec], result := .error "No position found for this user" }
  | some (p, d) =>
    let rec1 : WithdrawRecord := {
      _id := db.length + 1
      userAddress := userAddress
      srcChainDomain := d
      dstChainDomain := 14
      status := .initiating_withdraw
      position := some p
      initWithdrawTxHash := none
      attestationMessage := none
      attestation := none
      processWithdrawTxHash := none
      errorMessage := none }
    let db1 := db ++ [rec1]
    match initTx with
    | .ok h =>
      let db2 := updateWithdrawById db1 rec1._id (fun r =>
        { r with status := .pending_attestation, initWithdrawTxHash := some h })
      { db := db2,
        result := match getWithdrawById db2 rec1._id with
          | some r => .ok r
          | none => .error "Withdraw status not found" }
    | .error e =>
      { db := db1, result := .error ("Failed to call initWithdraw: " ++ e) }

/-- Model of `maxAttempts` of the withdraw polling loop (withdraw.service.ts line 332). -/
def withdrawMaxAttempts : Nat := 60

/-- Observable result of one `waitForAttestationAndProcess` invocation. -/
structure WithdrawRun where
  db : List WithdrawRecord
  result : Except String WithdrawRecord
  destCalls : Nat
  attCalls : Nat
  statusWrites : List WithdrawStatusE
deriving Repr, DecidableEq

/-- The attestation-timeout tail of `waitForAttestationAndProcess` (failed
write inside the `try`, second failed write in the outer `catch`). -/
def withdrawTimeoutRun (db1 : List WithdrawRecord) (id : Nat) (attCalls : Nat) : WithdrawRun :=
  let msg := "Attestation timeout or not found"
  let failPatch : WithdrawRecord → WithdrawRecord :=
    fun r => { r with status := .failed, errorMessage := some msg }
  let db2 := updateWithdrawById db1 id failPatch
  let db3 := updateWithdrawById db2 id failPatch
  { db := db3, result := .error msg, destCalls := 0, attCalls := attCalls,
    statusWrites := [.pending_attestation, .failed, .failed] }

/-- Model of `WithdrawService.waitForAttestationAndProcess(withdrawId)`
(src/services/withdraw.service.ts lines 313-399).  Same shape as the deposit
resume: unconditional rewrite to `pending_attestation`, bounded attestation
polling, then the `processWithdraw` destination call (`dest` oracle) followed
by `processing_withdraw` and `completed` writes. -/
def waitForAttestationAndProcess (db : List WithdrawRecord) (withdrawId : Nat)
    (oracle : Nat → PollResult) (dest : Except String String) : WithdrawRun :=
  match getWithdrawById db withdrawId with
  | none =>
    { db := db, result := .error "Withdraw status not found",
      destCalls := 0, attCalls := 0, statusWrites := [] }
  | some w0 =>
    match w0.initWithdrawTxHash with
    | none =>
      { db := db, result := .error "No initWithdraw transaction hash found",
        destCalls := 0, attCalls := 0, statusWrites := [] }
    | some _ =>
      let db1 := updateWithdrawById db w0._id (fun r =>
        { r with status := .pending_attestation })
      let poll := pollAttestation oracle 0 withdrawMaxAttempts
      match poll.1 with
      | none => withdrawTimeoutRun db1 w0._id poll.2
      | some m =>
        if m.status = "complete" then
          let db2 := updateWithdrawById db1 w0._id (fun r =>
            { r with status := .attestation_received,
                     attestationMessage := some m.message,
                     attestation := some m.attestation })
          match dest with
          | .ok h =>
            let db3 := updateWithdrawById db2 w0._id (fun r =>
              { r with status := .processing_withdraw, processWithdrawTxHash := some h })
            let db4 := updateWithdrawById db3 w0._id (fun r => { r with status := .completed })
            { db := db4,
              result := match getWithdrawById db4 w0._id with
                | some r => .ok r
                | none => .error "Withdraw status not found",
              destCalls := 1, attCalls := poll.2,
              statusWrites := [.pending_attestation, .attestation_received,
                               .processing_withdraw, .completed] }
          | .error e =>
            let msg := "Failed to call processWithdraw: " ++ e
            let db3 := updateWithdrawById db2 w0._id (fun r =>
              { r with status := .failed, errorMessage := some msg })
            { db := db3, result := .error msg, destCalls := 1, attCalls := poll.2,
              statusWrites := [.pending_attestation, .attestation_received, .failed] }
        else withdrawTimeoutRun db1 w0._id poll.2

/-! ## Resumption scheduler (CronService) -/

/-- Per-record external environment for one scheduler pass: the outcome of
the single attestation check (`retrieveAttestation` may return `null`, a
message, or throw) and the outcome of the destination `processWithdraw`
call should it be reached. -/
structure RecordEnv where
  att : Except String (Option AttestationMessage)
  dest : Except String String
deriving Repr, DecidableEq

/-- How `processIndividualWithdraw` disposed of one record. -/
inductive CronOutcome where
  | noTxHash
  | notReady
  | processedOk
  | transientSkip
  | markedFailed
deriving Repr, DecidableEq

/-- Helper for the substring test: list-of-characters prefix check. -/
def isPrefixList : List Char → List Char → Bool
  | [], _ => true
  | _ :: _, [] => false
  | a :: as, b :: bs => a == b && isPrefixList as bs

/-- Helper for the substring test: does the character list contain the word
timeout as a contiguous substring. -/
def containsTimeoutChars : List Char → Bool
  | [] => false
  | c :: rest =>
    (isPrefixList ['t', 'i', 'm', 'e', 'o', 'u', 't'] (c :: rest))
      || containsTimeoutChars rest

/-- Model of the substring test on the caught error text, the JS expression being a call of includes with the literal timeout. -/
def containsTimeout (s : String) : Bool := containsTimeoutChars s.data

/-- Model of `WithdrawService.processWithdrawWithAttestation(withdrawId, attestationData)`:
write `attestation_received`, submit `processWithdraw` on the settlement
chain, then write `processing_withdraw` and `completed`; on failure write
`failed` with the wrapped error and rethrow. -/
def processWithdrawWithAttestation (db : List WithdrawRecord) (withdrawId : Nat)
    (m : AttestationMessage) (dest : Except String String) :
    List WithdrawRecord × Except String WithdrawRecord :=
  match getWithdrawById db withdrawId with
  | none => (db, .error "Withdraw status not found")
  | some w0 =>
    let db1 := updateWithdrawById db w0._id (fun r =>
      { r with status := .attestation_received,
               attestationMessage := some m.message,
               attestation := some m.attestation })
    match dest with
    | .ok h =>
      let db2 := updateWithdrawById db1 w0._id (fun r =>
        { r with status := .processing_withdraw, processWithdrawTxHash := some h })
      let db3 := updateWithdrawById db2 w0._id (fun r => { r with status := .completed })
      (db3,
        match getWithdrawById db3 w0._id with
        | some r => .ok r
        | none => .error "Withdraw status not found")
    | .error e =>
      let msg := "Failed to call processWithdraw: " ++ e
      let db2 := updateWithdrawById db1 w0._id (fun r =>
        { r with status := .failed, errorMessage := some msg })
      (db2, .error msg)

/-- Model of `CronService.processIndividualWithdraw(withdraw)`: skip records without
an `initWithdrawTxHash`; check the attestation once; a `null` or
non-complete answer leaves the record for the next tick; on a complete
answer run `processWithdrawWithAttestation`.  Every error is caught here:
when the message contains `timeout` the catch writes nothing further (which
leaves the record untouched only if nothing was written before the throw -
`processWithdrawWithAttestation` has already marked the record failed before
rethrowing), any other error marks the record `failed` with that message.
Nothing is rethrown, so the enclosing batch loop always continues. -/
def processIndividualWithdraw (db : List WithdrawRecord) (w : WithdrawRecord)
    (envr : RecordEnv) : List WithdrawRecord × CronOutcome :=
  match w.initWithdrawTxHash with
  | none => (db, .noTxHash)
  | some _ =>
    match envr.att with
    | .error e =>
      if containsTimeout e then (db, .transientSkip)
      else
        (updateWithdrawById db w._id (fun r =>
          { r with status := .failed, errorMessage := some e }), .markedFailed)
    | .ok none => (db, .notReady)
    | .ok (some m) =>
      if m.status ≠ "complete" then (db, .notReady)
      else
        let step := processWithdrawWithAttestation db w._id m envr.dest
        match step.2 with
        | .ok _ => (step.1, .processedOk)
        | .error e =>
          if containsTimeout e then (step.1, .transientSkip)
          else
            (updateWithdrawById step.1 w._id (fun r =>
              { r with status := .failed, errorMessage := some e }), .markedFailed)

/-- Model of `WithdrawService.getPendingAttestationWithdraws()`: the records in
`pending_attestation` with a non-empty source transaction hash.  The list
order of the collection stands in for the `createdAt` ascending sort. -/
def getPendingAttestationWithdraws (db : List WithdrawRecord) : List WithdrawRecord :=
  db.filter (fun r => r.status == .pending_attestation && r.initWithdrawTxHash.isSome)

/-- The sequential batch loop inside `CronService.processPendingAttestations`:
process each fetched record in turn, threading the collection through; each
record contributes one outcome, and no outcome aborts the loop. -/
def cronBatch (db : List WithdrawRecord) (env : Nat → RecordEnv) :
    List WithdrawRecord → List WithdrawRecord × List CronOutcome
  | [] => (db, [])
  | w :: rest =>
    let step := processIndividualWithdraw db w (env w._id)
    let tail := cronBatch step.1 env rest
    (tail.1, step.2 :: tail.2)

/-- Model of `CronService.processPendingAttestations()`: fetch the pending-attestation
withdraw records once, then run the batch loop over that snapshot. -/
def processPendingAttestations (db : List WithdrawRecord) (env : Nat → RecordEnv) :
    List WithdrawRecord × List CronOutcome :=
  cronBatch db env (getPendingAttestationWithdraws db)

/-! ## Status order and auxiliary predicates -/

/-- Position of a deposit status in the declared transition graph
`pending_attestation → attestation_received → processing_deposit →
deposit_confirmed → completed`, with `failed` terminal. -/
def depositStatusRank : DepositStatusE → Nat
  | .pending_attestation => 0
  | .attestation_received => 1
  | .processing_deposit => 2
  | .deposit_confirmed => 3
  | .completed => 4
  | .failed => 5

/-- Position of a withdraw status in the declared transition graph. -/
def withdrawStatusRank : WithdrawStatusE → Nat
  | .checking_position => 0
  | .position_found => 1
  | .initiating_withdraw => 2
  | .withdraw_initiated => 3
  | .pending_attestation => 4
  | .attestation_received => 5
  | .processing_withdraw => 6
  | .completed => 7
  | .failed => 8

/-- Checks that consecutive deposit status writes only move forward in the
transition graph or into the terminal `failed` state. -/
def depForwardChain : List DepositStatusE → Bool
  | [] => true
  | [_] => true
  | a :: b :: t =>
    (decide (depositStatusRank a ≤ depositStatusRank b) || b == .failed)
      && depForwardChain (b :: t)

/-- Checks that consecutive withdraw status writes only move forward in the
transition graph or into the terminal `failed` state. -/
def wForwardChain : List WithdrawStatusE → Bool
  | [] => true
  | [_] => true
  | a :: b :: t =>
    (decide (withdrawStatusRank a ≤ withdrawStatusRank b) || b == .failed)
      && wForwardChain (b :: t)

/-- Whether the polling loop ended with a complete attestation. -/
def isCompleteAtt : Option AttestationMessage → Bool
  | some m => m.status == "complete"
  | none => false

/-! ## Concrete fixtures used by counterexamples and witnesses -/

/-- A representative yield opportunity. -/
def sampleOpportunity : Opportunity :=
  { protocol := 3, apy := 5, chainId := 8453, poolAddress := "0xPool" }

/-- A deposit record that already ran to completion: destination transaction
hash recorded, status `completed`. -/
def completedDepositRecord : DepositRecord :=
  { _id := 1, srcChainDomain := 0, dstChainDomain := 6, userWallet := "0xUserA",
    amount := "1000000", opportunity := sampleOpportunity,
    bridgeTransactionHash := "0xaaaaaaaaaaaa", status := .completed,
    attestationMessage := some "0xmsgOld", attestation := some "0xattOld",
    depositTxHash := some "0xdestOld", errorMessage := none }

/-- An attestation oracle whose first answer is already a complete message. -/
def completeOracle : Nat → PollResult :=
  fun _ => .ok (some { status := "complete", message := "0xmsgNew",
                       attestation := "0xattNew", eventNonce := "7" })

/-- Resuming the already-completed deposit record with an available
attestation and a succeeding destination-chain call. -/
def resumeCompletedRun : DepositRun :=
  waitForConfirmationAndProcess [completedDepositRecord] "0xaaaaaaaaaaaa"
    completeOracle (.ok "0xdestNew")

/-- A second already-completed deposit record. -/
def completedDepositRecordB : DepositRecord :=
  { _id := 2, srcChainDomain := 3, dstChainDomain := 6, userWallet := "0xUserB",
    amount := "2000000", opportunity := sampleOpportunity,
    bridgeTransactionHash := "0xbbbbbbbbbbbb", status := .completed,
    attestationMessage := some "0xmsgB", attestation := some "0xattB",
    depositTxHash := some "0xdone", errorMessage := none }

/-- Resuming the second completed record while every attestation poll throws. -/
def resumeCompletedRunB : DepositRun :=
  waitForConfirmationAndProcess [completedDepositRecordB] "0xbbbbbbbbbbbb"
    (fun _ => .err) (.ok "0xunused")

/-- A pending deposit record for the idempotency fixture. -/
def pendingDepositRecord : DepositRecord :=
  { _id := 3, srcChainDomain := 0, dstChainDomain := 6, userWallet := "0xUserC",
    amount := "42", opportunity := sampleOpportunity,
    bridgeTransactionHash := "0xcccccccccccc", status := .pending_attestation,
    attestationMessage := none, attestation := none,
    depositTxHash := none, errorMessage := none }

/-- A deposit initiation request carrying the same bridge transaction hash as
`pendingDepositRecord`. -/
def repeatDepositRequest : InternalDepositRequest :=
  { srcChainDomain := 0, dstChainDomain := 6, userWallet := "0xUserC",
    amount := "42", opportunity := sampleOpportunity,
    bridgeTransactionHash := "0xcccccccccccc" }

/-- A position with pool id 2, sitting on the second scanned chain. -/
def positionOnSecondChain : Position :=
  { pool := 2, positionId := "0xpos2", user := "0xUserB",
    amountUsdc := "500", shares := "500", vault := "0xVault2" }

/-- An empty (pool id 0) position tuple. -/
def emptyPosition : Position :=
  { pool := 0, positionId := "0xnone", user := "0xUserC",
    amountUsdc := "0", shares := "0", vault := "0xVault0" }

/-- Scan environment: empty position on the first chain (domain 0), pool id 2
on the second chain (domain 2), read failures elsewhere. -/
def twoChainEnv : Nat → ChainReadOutcome :=
  fun d =>
    if d = 0 then .position emptyPosition
    else if d = 2 then .position positionOnSecondChain
    else .readError

/-- Scan environment in which every chain read fails. -/
def allFailEnv : Nat → ChainReadOutcome := fun _ => .readError

/-- Scan environment in which every chain reads successfully and reports an
empty position. -/
def allEmptyEnv : Nat → ChainReadOutcome := fun _ => .position emptyPosition

/-- A withdraw record waiting for its attestation, as the scheduler fetch
returns it. -/
def pendingWithdrawRecord : WithdrawRecord :=
  { _id := 7, userAddress := "0xUserW", srcChainDomain := 3, dstChainDomain := 14,
    status := .pending_attestation, position := some positionOnSecondChain,
    initWithdrawTxHash := some "0xinitwd12345",
    attestationMessage := none, attestation := none,
    processWithdrawTxHash := none, errorMessage := none }

/-- Scheduler environment whose attestation check throws a transient timeout
error for every record. -/
def timeoutCronEnv : Nat → RecordEnv :=
  fun _ => { att := .error "connection timeout", dest := .ok "0xproc" }

/-- Scheduler environment for one record whose attestation check succeeds
with a complete message but whose destination `processWithdraw` call throws a
timeout (for example the transaction-receipt wait timing out). -/
def destTimeoutEnv : RecordEnv :=
  { att := .ok (some { status := "complete", message := "0xm",
                       attestation := "0xa", eventNonce := "1" }),
    dest := .error "waitForTransactionReceipt timeout" }

/-! ## Helper lemmas -/

theorem getDepositById_update (db : List DepositRecord) (id : Nat)
    (f : DepositRecord → DepositRecord) (hf : ∀ r, (f r)._id = r._id) :
    getDepositById (updateDepositById db id f) id = (getDepositById db id).map f := by
  induction db with
  | nil => rfl
  | cons a t ih =>
    by_cases h : a._id = id
    · simp [getDepositById, updateDepositById, List.find?_cons, h, hf] at ih ⊢
    · simp [getDepositById, updateDepositById, List.find?_cons, h] at ih ⊢
      exact ih

theorem getWithdrawById_update (db : List WithdrawRecord) (id : Nat)
    (f : WithdrawRecord → WithdrawRecord) (hf : ∀ r, (f r)._id = r._id) :
    getWithdrawById (updateWithdrawById db id f) id = (getWithdrawById db id).map f := by
  induction db with
  | nil => rfl
  | cons a t ih =>
    by_cases h : a._id = id
    · simp [getWithdrawById, updateWithdrawById, List.find?_cons, h, hf] at ih ⊢
    · simp [getWithdrawById, updateWithdrawById, List.find?_cons, h] at ih ⊢
      exact ih

theorem exists_getDepositById (db : List DepositRecord) (r0 : DepositRecord)
    (hmem : r0 ∈ db) : ∃ r', getDepositById db r0._id = some r' := by
  have hs : (db.find? (fun r => r._id == r0._id)).isSome := by
    rw [List.find?_isSome]
    exact ⟨r0, hmem, by simp⟩
  exact Option.isSome_iff_exists.mp hs

theorem exists_getWithdrawById (db : List WithdrawRecord) (w0 : WithdrawRecord)
    (hmem : w0 ∈ db) : ∃ w', getWithdrawById db w0._id = some w' := by
  have hs : (db.find? (fun r => r._id == w0._id)).isSome := by
    rw [List.find?_isSome]
    exact ⟨w0, hmem, by simp⟩
  exact Option.isSome_iff_exists.mp hs

theorem scanPositions_first (env : Nat → ChainReadOutcome) (l1 : List Nat) :
    ∀ (l2 : List Nat) (d : Nat) (p : Position),
      (∀ d' ∈ l1, positiveRead (env d') = false) →
      env d = .position p → 0 < p.pool →
      scanPositions env (l1 ++ d :: l2) = some (p, d) := by
  induction l1 with
  | nil =>
    intro l2 d p _ hd hp
    simp [scanPositions, hd, hp]
  | cons a t ih =>
    intro l2 d p hskip hd hp
    have ha : positiveRead (env a) = false := hskip a (by simp)
    have ht : ∀ d' ∈ t, positiveRead (env d') = false :=
      fun d' h' => hskip d' (by simp [h'])
    cases hae : env a with
    | position q =>
      have hq : ¬ 0 < q.pool := by
        rw [hae] at ha
        simpa [positiveRead] using ha
      simpa [scanPositions, hae, hq] using ih l2 d p ht hd hp
    | noConfig => simpa [scanPositions, hae] using ih l2 d p ht hd hp
    | readError => simpa [scanPositions, hae] using ih l2 d p ht hd hp

theorem scanPositions_none (env : Nat → ChainReadOutcome) (L : List Nat)
    (h : ∀ d ∈ L, positiveRead (env d) = false) :
    scanPositions env L = none := by
  induction L with
  | nil => rfl
  | cons a t ih =>
    have ha : positiveRead (env a) = false := h a (by simp)
    have ht : ∀ d ∈ t, positiveRead (env d) = false :=
      fun d hd => h d (by simp [hd])
    cases hae : env a with
    | position q =>
      have hq : ¬ 0 < q.pool := by
        rw [hae] at ha
        simpa [positiveRead] using ha
      simp [scanPositions, hae, hq, ih ht]
    | noConfig => simp [scanPositions, hae, ih ht]
    | readError => simp [scanPositions, hae, ih ht]

theorem pollAttestation_calls_le (oracle : Nat → PollResult) :
    ∀ (fuel i : Nat), (pollAttestation oracle i fuel).2 ≤ fuel := by
  intro fuel
  induction fuel with
  | zero => intro i; simp [pollAttestation]
  | succ n ih =>
    intro i
    cases h : oracle i with
    | ok data =>
      cases data with
      | some m => simp [pollAttestation, h]
      | none =>
        simp only [pollAttestation, h]
        exact Nat.succ_le_succ (ih (i + 1))
    | err =>
      simp only [pollAttestation, h]
      exact Nat.succ_le_succ (ih (i + 1))

theorem cronBatch_length (env : Nat → RecordEnv) :
    ∀ (pending : List WithdrawRecord) (db : List WithdrawRecord),
      (cronBatch db env pending).2.length = pending.length := by
  intro pending
  induction pending with
  | nil => intro db; rfl
  | cons w rest ih => intro db; simp [cronBatch, ih]

/-! ## Claim C10 -/

/-- C10: for every transaction hash argument that is empty or shorter than 10
characters, `retrieveAttestation` throws `Invalid transaction hash provided`
before issuing any HTTP request to the attestation service. -/
theorem retrieveAttestation_rejects_short_hash
    (baseUrl transactionHash chainSource : String) (resp : HttpResponse)
    (h : transactionHash = "" ∨ transactionHash.length < 10) :
    (retrieveAttestation baseUrl transactionHash chainSource resp).result
        = .error "Invalid transaction hash provided" ∧
    (retrieveAttestation baseUrl transactionHash chainSource resp).requests = [] := by
  unfold retrieveAttestation
  rw [if_pos h]
  exact ⟨rfl, rfl⟩

/-- Witness for C10 at the concrete hash `0x123` (5 characters). -/
theorem retrieveAttestation_rejects_short_hash_witness :
    (("0x123" : String) = "" ∨ ("0x123" : String).length < 10) ∧
    (retrieveAttestation "https://api" "0x123" "ethereum" (.ok [])).result
        = .error "Invalid transaction hash provided" ∧
    (retrieveAttestation "https://api" "0x123" "ethereum" (.ok [])).requests = [] := by
  have h : (("0x123" : String) = "" ∨ ("0x123" : String).length < 10) := by
    right; decide
  exact ⟨h, retrieveAttestation_rejects_short_hash "https://api" "0x123" "ethereum" (.ok []) h⟩

/-! ## Claim C3 -/

/-- C3: initiating a deposit whose bridge transaction hash matches an
already-created record returns that existing record and leaves the
collection unchanged (no new record). -/
theorem initializedDeposit_idempotent (db : List DepositRecord)
    (req : InternalDepositRequest) (r0 : DepositRecord)
    (hfind : findDepositByTxHash db req.bridgeTransactionHash = some r0) :
    initializedDeposit db req = (db, r0) := by
  unfold initializedDeposit
  rw [hfind]

/-- Witness for C3: re-submitting `repeatDepositRequest` against a collection
already holding `pendingDepositRecord` returns that record and adds nothing. -/
theorem initializedDeposit_idempotent_witness :
    findDepositByTxHash [pendingDepositRecord] repeatDepositRequest.bridgeTransactionHash
        = some pendingDepositRecord ∧
    initializedDeposit [pendingDepositRecord] repeatDepositRequest
        = ([pendingDepositRecord], pendingDepositRecord) := by
  refine ⟨by decide, ?_⟩
  exact initializedDeposit_idempotent [pendingDepositRecord] repeatDepositRequest
    pendingDepositRecord (by decide)

/-! ## Claim C4 -/

/-- C4 counterexample: when the attestation service answers HTTP 404,
`retrieveAttestation` returns the not-yet-ready outcome (`null`) instead of
propagating an error, contradicting the claim that a 404 is surfaced as a
terminal error. -/
theorem retrieveAttestation_404_counterexample :
    (retrieveAttestation "https://api" "0x1234567890" "ethereum"
        (.httpError 404 "Request failed with status code 404")).result
      = .ok none := by decide

/-- C4 amended: on HTTP 404 `retrieveAttestation` returns `null` - the same
not-yet-ready outcome as a pending attestation - and only non-404 HTTP
failures propagate as `Failed to retrieve attestation` errors. -/
theorem retrieveAttestation_404_returns_pending
    (baseUrl transactionHash chainSource msg : String) (code : Nat)
    (hlen : 10 ≤ transactionHash.length) :
    (code = 404 →
      (retrieveAttestation baseUrl transactionHash chainSource
          (.httpError code msg)).result = .ok none) ∧
    (code ≠ 404 →
      (retrieveAttestation baseUrl transactionHash chainSource
          (.httpError code msg)).result
        = .error ("Failed to retrieve attestation: " ++ msg)) := by
  have hval : ¬(transactionHash = "" ∨ transactionHash.length < 10) := by
    rintro (he | hl)
    · have h0 : transactionHash.length = 0 := by rw [he]; rfl
      omega
    · omega
  unfold retrieveAttestation
  rw [if_neg hval]
  constructor
  · intro h404
    simp [h404]
  · intro hne
    simp [hne]

/-- Witness for the amended C4: a valid 12-character hash, HTTP 404 gives the
pending outcome and HTTP 500 gives a propagated error. -/
theorem retrieveAttestation_404_returns_pending_witness :
    10 ≤ ("0x1234567890" : String).length ∧
    (retrieveAttestation "https://api" "0x1234567890" "base"
        (.httpError 404 "nf")).result = .ok none ∧
    (retrieveAttestation "https://api" "0x1234567890" "base"
        (.httpError 500 "boom")).result
      = .error ("Failed to retrieve attestation: " ++ "boom") := by
  refine ⟨by decide, ?_, ?_⟩
  · exact (retrieveAttestation_404_returns_pending "https://api" "0x1234567890" "base"
      "nf" 404 (by decide)).1 rfl
  · exact (retrieveAttestation_404_returns_pending "https://api" "0x1234567890" "base"
      "boom" 500 (by decide)).2 (by decide)

/-! ## Claim C5 -/

/-- C5: `checkUserPosition` walks the configured domains in the fixed order
`supportedDomains` and returns the position and chain of the first domain
whose read yields a position with pool id > 0, provided every earlier domain
in the list yields no positive position (missing config, read failure, or an
empty position). -/
theorem checkUserPosition_first_positive (env : Nat → ChainReadOutcome)
    (l1 l2 : List Nat) (d : Nat) (p : Position)
    (hsplit : supportedDomains = l1 ++ d :: l2)
    (hskip : ∀ d' ∈ l1, positiveRead (env d') = false)
    (hd : env d = .position p) (hp : 0 < p.pool) :
    checkUserPosition env = some (p, d) := by
  unfold checkUserPosition
  rw [hsplit]
  exact scanPositions_first env l1 l2 d p hskip hd hp

/-- Witness for C5, realizing the scenario of the claim: an empty position on
the first scanned chain (domain 0) and pool id 2 on the second (domain 2)
makes the locator return the second chain and its position. -/
theorem checkUserPosition_first_positive_witness :
    supportedDomains = [0] ++ 2 :: [3, 6] ∧
    positiveRead (twoChainEnv 0) = false ∧
    twoChainEnv 2 = .position positionOnSecondChain ∧
    0 < positionOnSecondChain.pool ∧
    checkUserPosition twoChainEnv = some (positionOnSecondChain, 2) := by
  refine ⟨rfl, by decide, by decide, by decide, ?_⟩
  exact checkUserPosition_first_positive twoChainEnv [0] [3, 6] 2 positionOnSecondChain
    rfl
    (by
      intro d' hd'
      have : d' = 0 := by simpa using hd'
      rw [this]
      decide)
    (by decide) (by decide)

/-! ## Claim C6 -/

/-- C6 counterexample: a scan in which every chain read fails and a scan in
which every chain successfully reports an empty position both return `none`;
the caller cannot tell the two apart, contradicting the claimed
distinguishability. -/
theorem checkUserPosition_conflates_counterexample :
    checkUserPosition allFailEnv = none ∧
    checkUserPosition allEmptyEnv = none ∧
    checkUserPosition allFailEnv = checkUserPosition allEmptyEnv := by decide

/-- C6 amended: `checkUserPosition` returns `none` both when every configured
chain read fails and when every configured chain reads successfully with an
empty position; the two scans produce identical results. -/
theorem checkUserPosition_conflates (env₁ env₂ : Nat → ChainReadOutcome)
    (h₁ : ∀ d, env₁ d = .readError)
    (h₂ : ∀ d, ∃ p, env₂ d = .position p ∧ p.pool = 0) :
    checkUserPosition env₁ = none ∧
    checkUserPosition env₂ = none ∧
    checkUserPosition env₁ = checkUserPosition env₂ := by
  have e₁ : checkUserPosition env₁ = none :=
    scanPositions_none env₁ supportedDomains (by
      intro d _
      rw [h₁ d]
      rfl)
  have e₂ : checkUserPosition env₂ = none :=
    scanPositions_none env₂ supportedDomains (by
      intro d _
      obtain ⟨p, hp, h0⟩ := h₂ d
      rw [hp]
      simp [positiveRead, h0])
  exact ⟨e₁, e₂, by rw [e₁, e₂]⟩

/-- Witness for the amended C6 at the concrete environments `allFailEnv` and
`allEmptyEnv`. -/
theorem checkUserPosition_conflates_witness :
    checkUserPosition allFailEnv = none ∧
    checkUserPosition allEmptyEnv = none ∧
    checkUserPosition allFailEnv = checkUserPosition allEmptyEnv :=
  checkUserPosition_conflates allFailEnv allEmptyEnv
    (fun _ => rfl) (fun _ => ⟨emptyPosition, rfl, rfl⟩)

/-! ## Claim C7 -/

/-- C7: when no configured chain holds a position with pool id > 0,
`initializeWithdrawProcess` persists a new withdraw record with status
`failed`, error message `No position found for this user`, and the zeroed
position snapshot, and raises that error to the caller. -/
theorem initializeWithdrawProcess_no_position (db : List WithdrawRecord)
    (userAddress : String) (env : Nat → ChainReadOutcome)
    (initTx : Except String String)
    (h : checkUserPosition env = none) :
    ∃ r : WithdrawRecord,
      (initializeWithdrawProcess db userAddress env initTx).db = db ++ [r] ∧
      r.userAddress = userAddress ∧
      r.status = .failed ∧
      r.errorMessage = some "No position found for this user" ∧
      r.position = some (zeroPositionSnapshot userAddress) ∧
      (initializeWithdrawProcess db userAddress env initTx).result
        = .error "No position found for this user" := by
  unfold initializeWithdrawProcess
  rw [h]
  exact ⟨_, rfl, rfl, rfl, rfl, rfl, rfl⟩

/-- Witness for C7: initiating a withdraw for `0xabc` against an environment
where every chain read fails creates exactly the failed record and throws. -/
theorem initializeWithdrawProcess_no_position_witness :
    checkUserPosition allFailEnv = none ∧
    (∃ r : WithdrawRecord,
      (initializeWithdrawProcess [] "0xabc" allFailEnv (.ok "0xinit")).db = [] ++ [r] ∧
      r.userAddress = "0xabc" ∧
      r.status = .failed ∧
      r.errorMessage = some "No position found for this user" ∧
      r.position = some (zeroPositionSnapshot "0xabc") ∧
      (initializeWithdrawProcess [] "0xabc" allFailEnv (.ok "0xinit")).result
        = .error "No position found for this user") := by
  refine ⟨by decide, ?_⟩
  exact initializeWithdrawProcess_no_position [] "0xabc" allFailEnv (.ok "0xinit") (by decide)

/-! ## Claim C1 -/

/-- C1 counterexample: resuming a deposit record that is already `completed`
(destination transaction hash `0xdestOld` recorded) is not a no-op - the
destination-chain `processDeposit` call is submitted once more, the recorded
destination transaction hash is overwritten with the new hash `0xdestNew`,
and the record does not survive unchanged. -/
theorem resume_completed_not_noop_counterexample :
    completedDepositRecord.status = .completed ∧
    completedDepositRecord.depositTxHash = some "0xdestOld" ∧
    resumeCompletedRun.destCalls = 1 ∧
    (getDepositById resumeCompletedRun.db 1).map (fun r => r.depositTxHash)
      = some (some "0xdestNew") ∧
    getDepositById resumeCompletedRun.db 1 ≠ some completedDepositRecord := by decide

/-- C1 amended: `waitForConfirmationAndProcess` performs no check of the
persisted status or of `depositTxHash` before acting; invoked on a record in
any status - in particular `completed` - with an attestation available on the
first poll and a succeeding destination call, it submits the destination
transaction exactly once more, overwrites `depositTxHash` with the fresh
hash, and rewrites the whole status chain. -/
theorem waitForConfirmation_resubmits_on_completed
    (db : List DepositRecord) (tx newTx : String) (oracle : Nat → PollResult)
    (m : AttestationMessage) (r0 : DepositRecord)
    (hfind : findDepositByTxHash db tx = some r0)
    (_hstatus : r0.status = .completed)
    (h0 : oracle 0 = .ok (some m)) (hm : m.status = "complete") :
    (waitForConfirmationAndProcess db tx oracle (.ok newTx)).destCalls = 1 ∧
    ((getDepositById (waitForConfirmationAndProcess db tx oracle (.ok newTx)).db r0._id).map
        (fun r => r.depositTxHash) = some (some newTx)) ∧
    (waitForConfirmationAndProcess db tx oracle (.ok newTx)).statusWrites
      = [.pending_attestation, .attestation_received, .deposit_confirmed, .completed] := by
  have hpoll : pollAttestation oracle 0 depositMaxAttempts = (some m, 1) := by
    simp [depositMaxAttempts, pollAttestation, h0]
  obtain ⟨r', hr'⟩ := exists_getDepositById db r0 (List.mem_of_find?_eq_some hfind)
  simp only [waitForConfirmationAndProcess, hfind, hpoll, hm, if_true]
  refine ⟨by trivial, ?_, by trivial⟩
  rw [getDepositById_update, getDepositById_update, getDepositById_update,
      getDepositById_update, hr']
  all_goals first
  | (intro r; rfl)
  | rfl

/-- Witness for the amended C1 at the concrete completed record. -/
theorem waitForConfirmation_resubmits_on_completed_witness :
    findDepositByTxHash [completedDepositRecord] "0xaaaaaaaaaaaa"
        = some completedDepositRecord ∧
    completedDepositRecord.status = .completed ∧
    completeOracle 0 = .ok (some { status := "complete", message := "0xmsgNew",
                                   attestation := "0xattNew", eventNonce := "7" }) ∧
    (waitForConfirmationAndProcess [completedDepositRecord] "0xaaaaaaaaaaaa"
        completeOracle (.ok "0xdestNew")).destCalls = 1 ∧
    ((getDepositById (waitForConfirmationAndProcess [completedDepositRecord] "0xaaaaaaaaaaaa"
        completeOracle (.ok "0xdestNew")).db completedDepositRecord._id).map
        (fun r => r.depositTxHash) = some (some "0xdestNew")) ∧
    (waitForConfirmationAndProcess [completedDepositRecord] "0xaaaaaaaaaaaa"
        completeOracle (.ok "0xdestNew")).statusWrites
      = [.pending_attestation, .attestation_received, .deposit_confirmed, .completed] := by
  refine ⟨by decide, by decide, by decide, ?_⟩
  exact waitForConfirmation_resubmits_on_completed [completedDepositRecord]
    "0xaaaaaaaaaaaa" "0xdestNew" completeOracle
    { status := "complete", message := "0xmsgNew", attestation := "0xattNew", eventNonce := "7" }
    completedDepositRecord (by decide) (by decide) (by decide) (by decide)

/-! ## Claim C2 -/

/-- C2 counterexample: resuming a deposit record whose persisted status is
`completed` first writes `pending_attestation` back to it - a status strictly
earlier in the transition graph and different from `failed` - so the status
does move backward. -/
theorem resume_moves_status_backward_counterexample :
    findDepositByTxHash [completedDepositRecordB] "0xbbbbbbbbbbbb"
        = some completedDepositRecordB ∧
    completedDepositRecordB.status = .completed ∧
    resumeCompletedRunB.statusWrites.head? = some DepositStatusE.pending_attestation ∧
    depositStatusRank DepositStatusE.pending_attestation
        < depositStatusRank DepositStatusE.completed ∧
    DepositStatusE.pending_attestation ≠ DepositStatusE.failed := by decide

theorem depositRun_statusWrites_shape (db : List DepositRecord) (tx : String)
    (oracle : Nat → PollResult) (dest : Except String String) :
    (findDepositByTxHash db tx = none ∧
      (waitForConfirmationAndProcess db tx oracle dest).statusWrites = []) ∨
    ((∃ r0, findDepositByTxHash db tx = some r0) ∧
      (waitForConfirmationAndProcess db tx oracle dest).statusWrites ∈
        [[DepositStatusE.pending_attestation, DepositStatusE.failed, DepositStatusE.failed],
         [DepositStatusE.pending_attestation, DepositStatusE.attestation_received,
          DepositStatusE.deposit_confirmed, DepositStatusE.completed],
         [DepositStatusE.pending_attestation, DepositStatusE.attestation_received,
          DepositStatusE.failed]]) := by
  cases hf : findDepositByTxHash db tx with
  | none =>
    left
    exact ⟨rfl, by simp [waitForConfirmationAndProcess, hf]⟩
  | some r0 =>
    right
    refine ⟨⟨r0, rfl⟩, ?_⟩
    cases hp : (pollAttestation oracle 0 depositMaxAttempts).1 with
    | none => simp [waitForConfirmationAndProcess, hf, hp, depositTimeoutRun]
    | some m =>
      by_cases hm : m.status = "complete"
      · cases dest with
        | ok h => simp [waitForConfirmationAndProcess, hf, hp, hm]
        | error e => simp [waitForConfirmationAndProcess, hf, hp, hm]
      · simp [waitForConfirmationAndProcess, hf, hp, hm, depositTimeoutRun]

theorem withdrawRun_statusWrites_shape (db : List WithdrawRecord) (wid : Nat)
    (oracle : Nat → PollResult) (dest : Except String String) :
    (waitForAttestationAndProcess db wid oracle dest).statusWrites ∈
      [([] : List WithdrawStatusE),
       [WithdrawStatusE.pending_attestation, WithdrawStatusE.failed, WithdrawStatusE.failed],
       [WithdrawStatusE.pending_attestation, WithdrawStatusE.attestation_received,
        WithdrawStatusE.processing_withdraw, WithdrawStatusE.completed],
       [WithdrawStatusE.pending_attestation, WithdrawStatusE.attestation_received,
        WithdrawStatusE.failed]] := by
  cases hf : getWithdrawById db wid with
  | none => simp [waitForAttestationAndProcess, hf]
  | some w0 =>
    cases hh : w0.initWithdrawTxHash with
    | none => simp [waitForAttestationAndProcess, hf, hh]
    | some h0 =>
      cases hp : (pollAttestation oracle 0 withdrawMaxAttempts).1 with
      | none => simp [waitForAttestationAndProcess, hf, hh, hp, withdrawTimeoutRun]
      | some m =>
        by_cases hm : m.status = "complete"
        · cases dest with
          | ok h => simp [waitForAttestationAndProcess, hf, hh, hp, hm]
          | error e => simp [waitForAttestationAndProcess, hf, hh, hp, hm]
        · simp [waitForAttestationAndProcess, hf, hh, hp, hm, withdrawTimeoutRun]

/-- C2 amended: within one resume invocation (deposit or withdraw), the
sequence of persisted statuses moves only forward in the transition graph or
into `failed` - except that the resume entry point unconditionally writes
`pending_attestation` first, which is a backward move for any record already
past that state (as the counterexample shows for a completed record). -/
theorem resume_statusWrites_forward_after_reset
    (ddb : List DepositRecord) (tx : String) (dOr : Nat → PollResult)
    (dDest : Except String String)
    (wdb : List WithdrawRecord) (wid : Nat) (wOr : Nat → PollResult)
    (wDest : Except String String) :
    depForwardChain (waitForConfirmationAndProcess ddb tx dOr dDest).statusWrites = true ∧
    wForwardChain (waitForAttestationAndProcess wdb wid wOr wDest).statusWrites = true ∧
    (∀ r0, findDepositByTxHash ddb tx = some r0 →
      (waitForConfirmationAndProcess ddb tx dOr dDest).statusWrites.head?
        = some DepositStatusE.pending_attestation) := by
  refine ⟨?_, ?_, ?_⟩
  · rcases depositRun_statusWrites_shape ddb tx dOr dDest with ⟨_, hw⟩ | ⟨_, hw⟩
    · rw [hw]
      rfl
    · simp only [List.mem_cons, List.mem_singleton, List.not_mem_nil, or_false] at hw
      rcases hw with h | h | h <;> rw [h] <;> decide
  · have hs := withdrawRun_statusWrites_shape wdb wid wOr wDest
    simp only [List.mem_cons, List.mem_singleton, List.not_mem_nil, or_false] at hs
    rcases hs with h | h | h | h <;> rw [h] <;> decide
  · intro r0 hr0
    rcases depositRun_statusWrites_shape ddb tx dOr dDest with ⟨hn, _⟩ | ⟨_, hw⟩
    · rw [hr0] at hn
      cases hn
    · simp only [List.mem_cons, List.mem_singleton, List.not_mem_nil, or_false] at hw
      rcases hw with h | h | h <;> rw [h] <;> rfl

/-- Witness for the amended C2 at concrete deposit and withdraw resumes. -/
theorem resume_statusWrites_forward_after_reset_witness :
    depForwardChain (waitForConfirmationAndProcess [completedDepositRecord]
        "0xaaaaaaaaaaaa" completeOracle (.ok "0xdestNew")).statusWrites = true ∧
    wForwardChain (waitForAttestationAndProcess [pendingWithdrawRecord] 7
        (fun _ => .err) (.ok "0xw")).statusWrites = true ∧
    (waitForConfirmationAndProcess [completedDepositRecord]
        "0xaaaaaaaaaaaa" completeOracle (.ok "0xdestNew")).statusWrites.head?
      = some DepositStatusE.pending_attestation := by
  obtain ⟨h1, h2, h3⟩ := resume_statusWrites_forward_after_reset [completedDepositRecord]
    "0xaaaaaaaaaaaa" completeOracle (.ok "0xdestNew") [pendingWithdrawRecord] 7
    (fun _ => .err) (.ok "0xw")
  exact ⟨h1, h2, h3 completedDepositRecord (by decide)⟩

/-! ## Claim C8 -/

theorem depositTimeout_eq (db : List DepositRecord) (tx : String)
    (oracle : Nat → PollResult) (dest : Except String String) (r0 : DepositRecord)
    (hfind : findDepositByTxHash db tx = some r0)
    (hnc : isCompleteAtt (pollAttestation oracle 0 depositMaxAttempts).1 = false) :
    waitForConfirmationAndProcess db tx oracle dest
      = depositTimeoutRun
          (updateDepositById db r0._id (fun r =>
            { r with bridgeTransactionHash := tx, status := .pending_attestation }))
          r0._id (pollAttestation oracle 0 depositMaxAttempts).2 := by
  cases hp : (pollAttestation oracle 0 depositMaxAttempts).1 with
  | none => simp [waitForConfirmationAndProcess, hfind, hp]
  | some m =>
    have hm : ¬ m.status = "complete" := by
      rw [hp] at hnc
      simpa [isCompleteAtt] using hnc
    simp [waitForConfirmationAndProcess, hfind, hp, hm]

theorem withdrawTimeout_eq (db : List WithdrawRecord) (wid : Nat)
    (oracle : Nat → PollResult) (dest : Except String String) (w0 : WithdrawRecord)
    (h0 : String)
    (hw : getWithdrawById db wid = some w0)
    (hh : w0.initWithdrawTxHash = some h0)
    (hnc : isCompleteAtt (pollAttestation oracle 0 withdrawMaxAttempts).1 = false) :
    waitForAttestationAndProcess db wid oracle dest
      = withdrawTimeoutRun
          (updateWithdrawById db w0._id (fun r => { r with status := .pending_attestation }))
          w0._id (pollAttestation oracle 0 withdrawMaxAttempts).2 := by
  cases hp : (pollAttestation oracle 0 withdrawMaxAttempts).1 with
  | none => simp [waitForAttestationAndProcess, hw, hh, hp]
  | some m =>
    have hm : ¬ m.status = "complete" := by
      rw [hp] at hnc
      simpa [isCompleteAtt] using hnc
    simp [waitForAttestationAndProcess, hw, hh, hp, hm]

/-- C8: the attestation polling inside both resume operations is bounded (at
most `depositMaxAttempts` resp. `withdrawMaxAttempts` attestation calls), and
when the loop ends without a complete attestation the record is marked
`failed` with `Attestation timeout or not found` and that error is raised to
the caller. -/
theorem resume_polling_bounded
    (ddb : List DepositRecord) (tx : String) (dOr : Nat → PollResult)
    (dDest : Except String String)
    (wdb : List WithdrawRecord) (wid : Nat) (wOr : Nat → PollResult)
    (wDest : Except String String)
    (r0 : DepositRecord) (w0 : WithdrawRecord) (h0 : String)
    (hfind : findDepositByTxHash ddb tx = some r0)
    (hnc : isCompleteAtt (pollAttestation dOr 0 depositMaxAttempts).1 = false)
    (hw : getWithdrawById wdb wid = some w0)
    (hh : w0.initWithdrawTxHash = some h0)
    (hwn : isCompleteAtt (pollAttestation wOr 0 withdrawMaxAttempts).1 = false) :
    (waitForConfirmationAndProcess ddb tx dOr dDest).attCalls ≤ depositMaxAttempts ∧
    (waitForAttestationAndProcess wdb wid wOr wDest).attCalls ≤ withdrawMaxAttempts ∧
    (waitForConfirmationAndProcess ddb tx dOr dDest).result
      = .error "Attestation timeout or not found" ∧
    (waitForAttestationAndProcess wdb wid wOr wDest).result
      = .error "Attestation timeout or not found" ∧
    (∃ r, getDepositById (waitForConfirmationAndProcess ddb tx dOr dDest).db r0._id
        = some r ∧
      r.status = .failed ∧ r.errorMessage = some "Attestation timeout or not found") ∧
    (∃ w, getWithdrawById (waitForAttestationAndProcess wdb wid wOr wDest).db w0._id
        = some w ∧
      w.status = .failed ∧ w.errorMessage = some "Attestation timeout or not found") := by
  have hde := depositTimeout_eq ddb tx dOr dDest r0 hfind hnc
  have hwe := withdrawTimeout_eq wdb wid wOr wDest w0 h0 hw hh hwn
  obtain ⟨r', hr'⟩ := exists_getDepositById ddb r0 (List.mem_of_find?_eq_some hfind)
  obtain ⟨w', hw'⟩ := exists_getWithdrawById wdb w0 (List.mem_of_find?_eq_some hw)
  rw [hde, hwe]
  refine ⟨?_, ?_, rfl, rfl, ?_, ?_⟩
  · exact pollAttestation_calls_le dOr depositMaxAttempts 0
  · exact pollAttestation_calls_le wOr withdrawMaxAttempts 0
  · simp only [depositTimeoutRun]
    rw [getDepositById_update, getDepositById_update, getDepositById_update, hr']
    · exact ⟨_, rfl, rfl, rfl⟩
    all_goals intro r; rfl
  · simp only [withdrawTimeoutRun]
    rw [getWithdrawById_update, getWithdrawById_update, getWithdrawById_update, hw']
    · exact ⟨_, rfl, rfl, rfl⟩
    all_goals intro r; rfl

/-- Witness for C8: a deposit resume whose every poll throws and a withdraw
resume whose every poll returns `null` both end in the bounded timeout
failure. -/
theorem resume_polling_bounded_witness :
    findDepositByTxHash [pendingDepositRecord] "0xcccccccccccc"
        = some pendingDepositRecord ∧
    isCompleteAtt (pollAttestation (fun _ => .err) 0 depositMaxAttempts).1 = false ∧
    getWithdrawById [pendingWithdrawRecord] 7 = some pendingWithdrawRecord ∧
    pendingWithdrawRecord.initWithdrawTxHash = some "0xinitwd12345" ∧
    isCompleteAtt (pollAttestation (fun _ => .ok none) 0 withdrawMaxAttempts).1 = false ∧
    ((waitForConfirmationAndProcess [pendingDepositRecord] "0xcccccccccccc"
        (fun _ => .err) (.ok "0x1")).attCalls ≤ depositMaxAttempts ∧
     (waitForAttestationAndProcess [pendingWithdrawRecord] 7
        (fun _ => .ok none) (.ok "0x2")).attCalls ≤ withdrawMaxAttempts ∧
     (waitForConfirmationAndProcess [pendingDepositRecord] "0xcccccccccccc"
        (fun _ => .err) (.ok "0x1")).result
       = .error "Attestation timeout or not found" ∧
     (waitForAttestationAndProcess [pendingWithdrawRecord] 7
        (fun _ => .ok none) (.ok "0x2")).result
       = .error "Attestation timeout or not found" ∧
     (∃ r, getDepositById (waitForConfirmationAndProcess [pendingDepositRecord]
          "0xcccccccccccc" (fun _ => .err) (.ok "0x1")).db pendingDepositRecord._id
         = some r ∧
       r.status = .failed ∧ r.errorMessage = some "Attestation timeout or not found") ∧
     (∃ w, getWithdrawById (waitForAttestationAndProcess [pendingWithdrawRecord] 7
          (fun _ => .ok none) (.ok "0x2")).db pendingWithdrawRecord._id
         = some w ∧
       w.status = .failed ∧ w.errorMessage = some "Attestation timeout or not found")) := by
  refine ⟨by decide, by decide, by decide, by decide, by decide, ?_⟩
  exact resume_polling_bounded [pendingDepositRecord] "0xcccccccccccc"
    (fun _ => .err) (.ok "0x1") [pendingWithdrawRecord] 7 (fun _ => .ok none) (.ok "0x2")
    pendingDepositRecord pendingWithdrawRecord "0xinitwd12345"
    (by decide) (by decide) (by decide) (by decide) (by decide)

/-! ## Claim C9 -/

/-- C9 counterexample: the claim that a `timeout`-classified failure leaves
the record's status unchanged fails on the path where the failure is
rethrown by `processWithdrawWithAttestation`: the attestation is complete,
the destination `processWithdraw` call throws a timeout, the scheduler
classifies the failure as transient (outcome `transientSkip`, no further
write by the catch) - yet the record, `pending_attestation` before the pass,
ends the pass marked `failed`, because `processWithdrawWithAttestation`
already wrote `failed` before rethrowing. -/
theorem cron_transient_already_failed_counterexample :
    pendingWithdrawRecord.status = WithdrawStatusE.pending_attestation ∧
    containsTimeout
        ("Failed to call processWithdraw: " ++ "waitForTransactionReceipt timeout")
      = true ∧
    (processIndividualWithdraw [pendingWithdrawRecord] pendingWithdrawRecord
        destTimeoutEnv).2 = .transientSkip ∧
    (getWithdrawById (processIndividualWithdraw [pendingWithdrawRecord]
        pendingWithdrawRecord destTimeoutEnv).1 7).map (fun r => r.status)
      = some WithdrawStatusE.failed := by decide

/-- C9 amended: one scheduler pass produces exactly one outcome per fetched
pending-attestation record regardless of any per-record failures (no failure
aborts the batch).  For failures thrown by the attestation check, an error
message containing `timeout` leaves the record unchanged for the next tick
and any other message marks the record `failed` with it.  For failures
thrown after a complete attestation by `processWithdrawWithAttestation`,
however, the record has already been marked `failed` with the wrapped
destination error before the catch classifies the failure, so it ends the
pass `failed` even when the message contains `timeout`. -/
theorem cronPass_failure_isolation
    (db : List WithdrawRecord) (env : Nat → RecordEnv)
    (dbx : List WithdrawRecord) (w : WithdrawRecord) (e h0 : String) (envA : RecordEnv)
    (dbx2 : List WithdrawRecord) (w2 : WithdrawRecord) (h2 ed : String)
    (m : AttestationMessage) (envB : RecordEnv)
    (hh : w.initWithdrawTxHash = some h0)
    (heA : envA.att = .error e)
    (hh2 : w2.initWithdrawTxHash = some h2)
    (heB : envB.att = .ok (some m)) (hm : m.status = "complete")
    (hdB : envB.dest = .error ed)
    (hw2 : getWithdrawById dbx2 w2._id = some w2) :
    (processPendingAttestations db env).2.length
      = (getPendingAttestationWithdraws db).length ∧
    (containsTimeout e = true →
      processIndividualWithdraw dbx w envA = (dbx, .transientSkip)) ∧
    (containsTimeout e = false →
      processIndividualWithdraw dbx w envA
        = (updateWithdrawById dbx w._id (fun r =>
            { r with status := .failed, errorMessage := some e }), .markedFailed)) ∧
    (∃ r, getWithdrawById (processIndividualWithdraw dbx2 w2 envB).1 w2._id
        = some r ∧
      r.status = .failed ∧
      r.errorMessage = some ("Failed to call processWithdraw: " ++ ed)) := by
  refine ⟨cronBatch_length env (getPendingAttestationWithdraws db) db, ?_, ?_, ?_⟩
  · intro ht
    simp [processIndividualWithdraw, hh, heA, ht]
  · intro hf
    simp [processIndividualWithdraw, hh, heA, hf]
  · have hmne : ¬ (m.status ≠ "complete") := by simp [hm]
    simp only [processIndividualWithdraw, hh2, heB, if_neg hmne,
               processWithdrawWithAttestation, hw2, hdB]
    by_cases hct : containsTimeout ("Failed to call processWithdraw: " ++ ed) = true
    · simp only [hct, if_true]
      rw [getWithdrawById_update, getWithdrawById_update, hw2]
      · exact ⟨_, rfl, rfl, rfl⟩
      all_goals intro r; rfl
    · have hcf : containsTimeout ("Failed to call processWithdraw: " ++ ed) = false :=
        Bool.eq_false_iff.mpr (fun hc => hct hc)
      simp only [hcf, Bool.false_eq_true, if_false]
      rw [getWithdrawById_update, getWithdrawById_update, getWithdrawById_update, hw2]
      · exact ⟨_, rfl, rfl, rfl⟩
      all_goals intro r; rfl

/-- Witness for the amended C9: one pass over a single pending withdraw, an
attestation check throwing `connection timeout` (record untouched), and the
destination-timeout environment (record already failed). -/
theorem cronPass_failure_isolation_witness :
    pendingWithdrawRecord.initWithdrawTxHash = some "0xinitwd12345" ∧
    (timeoutCronEnv pendingWithdrawRecord._id).att = .error "connection timeout" ∧
    destTimeoutEnv.att = .ok (some { status := "complete", message := "0xm",
                                     attestation := "0xa", eventNonce := "1" }) ∧
    destTimeoutEnv.dest = .error "waitForTransactionReceipt timeout" ∧
    getWithdrawById [pendingWithdrawRecord] pendingWithdrawRecord._id
      = some pendingWithdrawRecord ∧
    (processPendingAttestations [pendingWithdrawRecord] timeoutCronEnv).2.length
      = (getPendingAttestationWithdraws [pendingWithdrawRecord]).length ∧
    processIndividualWithdraw [pendingWithdrawRecord] pendingWithdrawRecord
        (timeoutCronEnv pendingWithdrawRecord._id)
      = ([pendingWithdrawRecord], .transientSkip) ∧
    (∃ r, getWithdrawById (processIndividualWithdraw [pendingWithdrawRecord]
        pendingWithdrawRecord destTimeoutEnv).1 pendingWithdrawRecord._id = some r ∧
      r.status = .failed ∧
      r.errorMessage
        = some ("Failed to call processWithdraw: " ++ "waitForTransactionReceipt timeout")) := by
  obtain ⟨h1, h2, _, h4⟩ := cronPass_failure_isolation [pendingWithdrawRecord]
    timeoutCronEnv [pendingWithdrawRecord] pendingWithdrawRecord "connection timeout"
    "0xinitwd12345" (timeoutCronEnv pendingWithdrawRecord._id)
    [pendingWithdrawRecord] pendingWithdrawRecord "0xinitwd12345"
    "waitForTransactionReceipt timeout"
    { status := "complete", message := "0xm", attestation := "0xa", eventNonce := "1" }
    destTimeoutEnv
    (by decide) (by decide) (by decide) (by decide) (by decide) (by decide) (by decide)
  exact ⟨by decide, by decide, by decide, by decide, by decide, h1, h2 (by decide), h4⟩

end Backend
